import Mathlib

/-!
Shallow embedding of the physiotherapy-clinic data generator
(`src/data_generator.py`, with the schema and sample catalog from
`src/database.py`).

Modelling conventions:
* Date/times are minutes since an epoch whose day 0 is a Monday (`Int`);
  calendar dates are whole days (`Int`).  Python's floor division `//`
  and modulo `%` are `Int.fdiv` / `Int.emod`.
* The pseudo-random stream (`random` module) is an explicit infinite
  stream of naturals together with a cursor; every primitive consumes
  draws exactly where the source consumes them (including draws that the
  source makes only inside a conditional branch).  `random.choices` with
  positive weights and `random.choice` return some element of the
  candidate list; which one depends on the drawn natural.  All weights
  in the source's tables are positive, so the support of a weighted draw
  is exactly the key list; the weights are kept in the tables for
  fidelity but do not restrict the support.
* `random.uniform`/`random.random` floats are modelled as rationals in
  the same closed/half-open ranges; `round(x, 2)` is modelled as
  rounding to cents (half-even versus half-up is immaterial here: no
  verified property depends on a price value).
* Faker calls produce opaque fresh strings derived from one drawn
  natural.
* Fallible operations (`random.choice` on a caller-supplied possibly
  empty list, a `dict` lookup that may raise `KeyError`) live in
  `Except String`.
-/

/-- An explicit pseudo-random source: an infinite stream of naturals and
a cursor.  Models the `random` module's single shared stream. -/
structure Rng where
  stream : Nat → Nat
  pos : Nat

/-- Draw one raw natural and advance the cursor. -/
def Rng.next (r : Rng) : Nat × Rng :=
  (r.stream r.pos, ⟨r.stream, r.pos + 1⟩)

/-- `random.randint(lo, hi)`: an integer in `[lo, hi]` (both ends
included), for `lo ≤ hi`. -/
def randint (lo hi : Int) (r : Rng) : Int × Rng :=
  ((lo + (r.next.1 : Int).emod (hi - lo + 1)), r.next.2)

/-- `random.random()`: the unit-interval draw, scaled to thousandths:
an integer in `[0, 1000)` standing for the real value divided by 1000,
so the source's `random.random() < c` is `randFloat < 1000 * c` here.
(Scaled integers are used because a unit draw only ever feeds threshold
comparisons.) -/
def randFloat (r : Rng) : Int × Rng :=
  ((r.next.1 % 1000 : ℕ), r.next.2)

/-- `random.uniform(lo, hi)`: a rational in `[lo, hi]`. -/
def randUniform (lo hi : ℚ) (r : Rng) : ℚ × Rng :=
  (lo + (((r.next.1 % 1001 : ℕ) : ℚ) / 1000) * (hi - lo), r.next.2)

/-- `random.choice(xs)` on a list known to be non-empty at every call
site (fixed literal tables); `d` is junk returned only for `[]`. -/
def choiceD {α : Type} (d : α) (xs : List α) (r : Rng) : α × Rng :=
  (xs.getD (r.next.1 % xs.length) d, r.next.2)

/-- `random.choice(xs)` on a caller-supplied list: raises `IndexError`
on an empty list. -/
def choiceE {α : Type} (xs : List α) (r : Rng) : Except String (α × Rng) :=
  match xs with
  | [] => .error "IndexError: empty sequence"
  | x :: rest => .ok (choiceD x (x :: rest) r)

/-- Days in minutes. -/
def minutesPerDay : Int := 1440

/-- `datetime.weekday()` of the calendar day holding minute-stamp `dt`
(epoch day 0 is a Monday, so Monday = 0 … Sunday = 6). -/
def weekday (dt : Int) : Int :=
  (dt.fdiv minutesPerDay).emod 7

/-- `dt.replace(hour=h, minute=m, second=0, microsecond=0)`. -/
def replaceTime (dt h m : Int) : Int :=
  (dt.fdiv minutesPerDay) * minutesPerDay + h * 60 + m

/-- `round(q, 2)`: round to cents. -/
def round2 (q : ℚ) : ℚ :=
  (⌊q * 100 + 1 / 2⌋ : ℤ) / 100

/-- A faker call (name, email, address, sentence…): an opaque string
derived from one drawn natural. -/
def fakeString (tag : String) (r : Rng) : String × Rng :=
  (tag ++ toString r.next.1, r.next.2)

/-- `_weighted_choice`: `random.choices(items, weights)[0]`.  Every
weight table in the source is all-positive, so the support is exactly
the key list; the drawn natural selects the key. -/
def weightedChoiceD {α : Type} (d : α) (table : List (α × ℚ)) (r : Rng) : α × Rng :=
  choiceD d (table.map Prod.fst) r

/-- `PATIENT_AGE_WEIGHTS`: age brackets with clinical weights. -/
def PATIENT_AGE_WEIGHTS : List ((Int × Int) × ℚ) :=
  [((25, 35), 0.15), ((35, 50), 0.25), ((50, 65), 0.35),
   ((65, 80), 0.20), ((80, 90), 0.05)]

/-- `CONDITION_DISTRIBUTION`: primary-condition weights. -/
def CONDITION_DISTRIBUTION : List (String × ℚ) :=
  [("Lower Back Pain", 0.25), ("Neck Pain", 0.15), ("Knee Injury", 0.12),
   ("Shoulder Pain", 0.10), ("Sports Injury", 0.08), ("Post-Surgery Rehab", 0.07),
   ("Arthritis Management", 0.06), ("Postural Problems", 0.05), ("Sciatica", 0.04),
   ("Tennis Elbow", 0.03), ("Fibromyalgia", 0.02), ("Other", 0.03)]

/-- `CANCELLATION_REASONS`: reason-category weights. -/
def CANCELLATION_REASONS : List (String × ℚ) :=
  [("Personal", 0.30), ("Medical", 0.20), ("Work", 0.18),
   ("Transportation", 0.12), ("Weather", 0.10), ("Other", 0.10)]

/-- A generated patient record (the dict built in `generate_patients`);
dates are day numbers. -/
structure Patient where
  first_name : String
  last_name : String
  email : String
  phone : String
  date_of_birth : Int
  gender : String
  address : String
  insurance_type : String
  primary_condition : String
  registration_date : Int
  emergency_contact : String
  emergency_phone : String
  notes : Option String
  deriving DecidableEq, Repr

/-- `_generate_realistic_age`: weighted bracket, then uniform inside it. -/
def generate_realistic_age (r : Rng) : Int × Rng :=
  let br := weightedChoiceD (25, 35) PATIENT_AGE_WEIGHTS r
  randint br.1.1 br.1.2 br.2

/-- One iteration of the loop body of `generate_patients`; random draws
occur in the source's evaluation order. -/
def generate_one_patient (now : Int) (r0 : Rng) : Patient × Rng :=
  let age := generate_realistic_age r0
  let gender := choiceD "M" ["M", "F"] age.2
  let birth_date := now.fdiv minutesPerDay - age.1 * 365
  let reg := randint 30 180 gender.2
  let registration_date := now.fdiv minutesPerDay - reg.1
  let fn := fakeString (if gender.1 = "M" then "first_name_male" else "first_name_female") reg.2
  let ln := fakeString "last_name" fn.2
  let em := fakeString "email" ln.2
  let ph := fakeString "phone_number" em.2
  let addr := fakeString "address" ph.2
  let ins := weightedChoiceD "Public"
    [("Public", 0.70), ("Private", 0.25), ("Self-pay", 0.05)] addr.2
  let cond := weightedChoiceD "Other" CONDITION_DISTRIBUTION ins.2
  let ec := fakeString "name" cond.2
  let ep := fakeString "phone_number" ec.2
  let nf := randFloat ep.2
  let notes := if nf.1 < 300 then some (fakeString "text" nf.2).1 else none
  let rEnd := if nf.1 < 300 then (fakeString "text" nf.2).2 else nf.2
  (⟨fn.1, ln.1, em.1, ph.1, birth_date, gender.1, addr.1, ins.1, cond.1,
    registration_date, ec.1, ep.1, notes⟩, rEnd)

/-- `generate_patients(num_patients)`. -/
def generate_patients (now : Int) : Nat → Rng → List Patient × Rng
  | 0, r => ([], r)
  | n + 1, r =>
    let p := generate_one_patient now r
    let rest := generate_patients now n p.2
    (p.1 :: rest.1, rest.2)

/-- A generated therapist record. -/
structure Therapist where
  first_name : String
  last_name : String
  email : String
  phone : String
  specialization : String
  license_number : String
  hire_date : Int
  hourly_rate : ℚ
  max_patients_per_day : Int
  working_days : String
  start_time : String
  end_time : String
  is_active : Int
  deriving DecidableEq, Repr

/-- The fixed specialization list of `generate_therapists`. -/
def specializations : List String :=
  ["Orthopedic Physical Therapy", "Sports Physical Therapy",
   "Neurological Physical Therapy", "Geriatric Physical Therapy",
   "Manual Therapy", "Pediatric Physical Therapy"]

/-- One iteration (index `i`) of the loop in `generate_therapists`:
staffing pattern fixed by index, then the random fields in source
order. -/
def generate_one_therapist (now : Int) (i : Nat) (r0 : Rng) : Therapist × Rng :=
  let working_days := if i < 4 then "Mon,Tue,Wed,Thu,Fri"
    else if i = 4 then "Mon,Wed,Fri" else "Tue,Thu,Fri"
  let start_time := if i < 4 then "08:00" else if i = 4 then "08:00" else "13:00"
  let end_time := if i < 4 then "17:00" else if i = 4 then "13:00" else "18:00"
  let max_patients := if i < 4 then (12 : Int) else if i = 4 then 6 else 6
  let hire := randint 365 1800 r0
  let hire_date := now.fdiv minutesPerDay - hire.1
  let fn := fakeString "first_name" hire.2
  let ln := fakeString "last_name" fn.2
  let em := fakeString "email" ln.2
  let ph := fakeString "phone_number" em.2
  let lic := randint 10000 99999 ph.2
  let rate := randUniform 35.0 55.0 lic.2
  (⟨fn.1, ln.1, em.1, ph.1, specializations.getD (i % specializations.length) "",
    "PT" ++ toString lic.1, hire_date, round2 rate.1, max_patients,
    working_days, start_time, end_time, 1⟩, rate.2)

/-- The loop of `generate_therapists`, from index `i`, `n` iterations
remaining. -/
def generate_therapists_from (now : Int) : Nat → Nat → Rng → List Therapist × Rng
  | _, 0, r => ([], r)
  | i, n + 1, r =>
    let t := generate_one_therapist now i r
    let rest := generate_therapists_from now (i + 1) n t.2
    (t.1 :: rest.1, rest.2)

/-- `generate_therapists(num_therapists)`. -/
def generate_therapists (now : Int) (num : Nat) (r : Rng) : List Therapist × Rng :=
  generate_therapists_from now 0 num r

/-- One row of the treatment catalog as read by `generate_appointments`
(`SELECT treatment_id, duration_minutes, base_price FROM treatments`). -/
structure TreatmentInfo where
  duration : Int
  price : ℚ
  deriving DecidableEq, Repr

/-- The `treatment_info` dict: lookup by treatment id (a missing key is
a Python `KeyError`, so the lookup is partial). -/
def findTreatment : List (Int × TreatmentInfo) → Int → Option TreatmentInfo
  | [], _ => none
  | p :: rest, k => if p.1 = k then some p.2 else findTreatment rest k

/-- A generated appointment record.  The source stores the slot as
`.date()` and `.time()` of one `appointment_datetime`; the embedding
keeps the combined minute-stamp, from which both parts are recovered as
`fdiv`/`emod` by `minutesPerDay`. -/
structure Appointment where
  appointment_id : Int
  patient_id : Int
  therapist_id : Int
  treatment_id : Int
  appointment_datetime : Int
  duration_minutes : Int
  status : String
  booking_date : Int
  booking_method : String
  price : ℚ
  insurance_covered : Bool
  copay_amount : ℚ
  notes : Option String
  reminder_sent : Bool
  check_in_time : Option Int
  treatment_start_time : Option Int
  treatment_end_time : Option Int
  deriving DecidableEq, Repr

/-- A generated cancellation record. -/
structure Cancellation where
  appointment_id : Int
  cancelled_by : String
  cancellation_date : Int
  hours_before_appointment : Int
  reason_category : String
  reason_detail : String
  refund_issued : Bool
  refund_amount : ℚ
  rescheduled : Bool
  deriving DecidableEq, Repr

/-- `_get_business_hours_datetime`: 70/30 peak/regular hour pool, then
an hour from the pool and a minute from the 15-minute grid. -/
def get_business_hours_datetime (date : Int) (r0 : Rng) : Int × Rng :=
  let f := randFloat r0
  let pool : List Int := if f.1 < 700 then [9, 10, 11, 14, 15] else [8, 12, 13, 16]
  let h := choiceD 8 pool f.2
  let m := choiceD 0 [0, 15, 30, 45] h.2
  (replaceTime date h.1 m.1, m.2)

/-- `hours_before_weights` of `_generate_cancellation`: bucket ceilings
with weights. -/
def hours_before_weights : List (Int × ℚ) :=
  [(1, 0.15), (4, 0.20), (24, 0.30), (48, 0.20), (168, 0.15)]

/-- `reason_details`: the fixed per-category phrase lists. -/
def reason_details : String → List String
  | "Personal" => ["Family emergency", "Personal commitment", "Childcare issues", "Travel conflict"]
  | "Medical" => ["Feeling unwell", "Other medical appointment", "Injury worsened", "Doctor advised rest"]
  | "Work" => ["Work meeting", "Unable to leave work", "Business travel", "Shift change"]
  | "Transportation" => ["Car trouble", "Public transport delay", "Traffic jam", "No ride available"]
  | "Weather" => ["Heavy rain", "Snow storm", "Icy roads", "Severe weather warning"]
  | _ => ["Forgot appointment", "Double booked", "Financial reasons", "No longer needed"]

/-- `_generate_cancellation(appointment_id, appointment_datetime)`;
the refund coin is drawn only in the `hours_before >= 24` branch. -/
def generate_cancellation (aid adt : Int) (r0 : Rng) : Cancellation × Rng :=
  let mh := weightedChoiceD 1 hours_before_weights r0
  let hb := randint 1 mh.1 mh.2
  let cancellation_date := adt - hb.1 * 60
  let rc := weightedChoiceD "Other" CANCELLATION_REASONS hb.2
  let rd := choiceD "" (reason_details rc.1) rc.2
  let coin := choiceD true [true, false] rd.2
  let refund_issued := if 24 ≤ hb.1 then coin.1 else false
  let refund_amount : ℚ := if 24 ≤ hb.1 then (if coin.1 then 25.0 else 0.0) else 0.0
  let r4 := if 24 ≤ hb.1 then coin.2 else rd.2
  let cb := weightedChoiceD "Patient"
    [("Patient", 0.85), ("Clinic", 0.10), ("Therapist", 0.05)] r4
  let resch := choiceD true [true, false] cb.2
  (⟨aid, cb.1, cancellation_date, hb.1, rc.1, rd.1, refund_issued, refund_amount,
    resch.1⟩, resch.2)

/-- `status_weights` of `generate_appointments`. -/
def status_weights : List (String × ℚ) :=
  [("Completed", 0.75), ("Cancelled", 0.15), ("No-show", 0.07), ("Scheduled", 0.03)]

/-- Date placement for one appointment (`generate_appointments` lines
270–278): day offset via `int(random.triangular(0, 180, 120))`
(modelled as an integer draw from its support `[0, 180]`), a weekend
shifted forward two days with probability 0.9 (the coin is drawn only
when the day is a weekend, mirroring the source's short-circuit `and`),
then a business-hours time. -/
def appointment_slot (now : Int) (r0 : Rng) : Int × Rng :=
  let dfs := randint 0 180 r0
  let d0 := (now - 180 * minutesPerDay) + dfs.1 * minutesPerDay
  let wf := randFloat dfs.2
  let appointment_date := if 5 ≤ weekday d0 then
      (if wf.1 < 900 then d0 + 2 * minutesPerDay else d0) else d0
  let r5 := if 5 ≤ weekday d0 then wf.2 else dfs.2
  get_business_hours_datetime appointment_date r5

/-- Pricing for one appointment (`generate_appointments` lines
287–294): insurance coin; when covered, a 10–30% co-pay of the base
price (the fraction is drawn only in that branch).  Returns
`((insurance_covered, copay_amount, final_price), rng)`. -/
def appointment_pricing (base_price : ℚ) (r0 : Rng) : (Bool × ℚ × ℚ) × Rng :=
  let insc := choiceD true [true, false] r0
  let u := randUniform 0.1 0.3 insc.2
  let copay : ℚ := if insc.1 then round2 (base_price * u.1) else 0
  let final_price := if insc.1 then copay else base_price
  ((insc.1, copay, final_price), if insc.1 then u.2 else insc.2)

/-- The three in-clinic timestamps of a completed appointment
(`generate_appointments` lines 334–343): check-in 5–15 min before the
slot, treatment start 0–10 min after it, treatment end at start plus
duration jittered by −5…+15 min. -/
def appointment_completed_times (adt duration : Int) (r0 : Rng) :
    (Int × Int × Int) × Rng :=
  let ci := randint 5 15 r0
  let ts := randint 0 10 ci.2
  let te := randint (-5) 15 ts.2
  ((adt - ci.1, adt + ts.1, (adt + ts.1) + (duration + te.1)), te.2)

/-- One iteration of the loop in `generate_appointments` (appointment id
`aid`): entity selection, date placement, booking lead, treatment
lookup (a missing id is a `KeyError`), pricing, status (forced
`Scheduled` for a future slot, otherwise the weighted draw), the
remaining record fields, conditional completed-timestamps, and the
conditional cancellation record.  Draws made by the source only inside
a branch advance the stream only on that branch. -/
def generate_one_appointment (now : Int) (tinfo : List (Int × TreatmentInfo))
    (pids thids tids : List Int) (aid : Int) (r0 : Rng) :
    Except String ((Appointment × Option Cancellation) × Rng) :=
  match choiceE pids r0 with
  | .error e => .error e
  | .ok pc =>
  match choiceE thids pc.2 with
  | .error e => .error e
  | .ok tc =>
  match choiceE tids tc.2 with
  | .error e => .error e
  | .ok trc =>
    let bh := appointment_slot now trc.2
    let lead := randint 1 14 bh.2
    let booking_date := bh.1 - lead.1 * minutesPerDay
    match findTreatment tinfo trc.1 with
    | none => .error "KeyError: treatment_id"
    | some info =>
      let pr := appointment_pricing info.price lead.2
      let sw := weightedChoiceD "Completed" status_weights pr.2
      let status := if now < bh.1 then "Scheduled" else sw.1
      let rS := if now < bh.1 then pr.2 else sw.2
      let bm := weightedChoiceD "Phone"
        [("Phone", 0.60), ("Online", 0.25), ("Walk-in", 0.10), ("Referral", 0.05)] rS
      let nf := randFloat bm.2
      let notes := if nf.1 < 200 then some (fakeString "sentence" nf.2).1 else none
      let rN := if nf.1 < 200 then (fakeString "sentence" nf.2).2 else nf.2
      let rem := choiceD true [true, false] rN
      let ct := appointment_completed_times bh.1 info.duration rem.2
      let check_in_time := if status = "Completed" then some ct.1.1 else none
      let treatment_start_time := if status = "Completed" then some ct.1.2.1 else none
      let treatment_end_time := if status = "Completed" then some ct.1.2.2 else none
      let rC := if status = "Completed" then ct.2 else rem.2
      let cz := generate_cancellation aid bh.1 rC
      let copt := if status = "Cancelled" then some cz.1 else none
      let rF := if status = "Cancelled" then cz.2 else rC
      .ok ((⟨aid, pc.1, tc.1, trc.1, bh.1, info.duration, status, booking_date, bm.1,
        pr.1.2.2, pr.1.1, pr.1.2.1, notes, rem.1, check_in_time,
        treatment_start_time, treatment_end_time⟩, copt), rF)

/-- The loop of `generate_appointments`: `n` iterations remaining, next
appointment id `aid`; accumulates appointments and (for cancelled ones)
cancellation records. -/
def generate_appointments_from (now : Int) (tinfo : List (Int × TreatmentInfo))
    (pids thids tids : List Int) :
    Nat → Int → Rng → Except String (List Appointment × List Cancellation × Rng)
  | 0, _, r => .ok ([], [], r)
  | n + 1, aid, r =>
    match generate_one_appointment now tinfo pids thids tids aid r with
    | .error e => .error e
    | .ok x =>
      match generate_appointments_from now tinfo pids thids tids n (aid + 1) x.2 with
      | .error e => .error e
      | .ok rest =>
        .ok (x.1.1 :: rest.1,
          (match x.1.2 with | some c => c :: rest.2.1 | none => rest.2.1),
          rest.2.2)

/-- `generate_appointments(patient_ids, therapist_ids, treatment_ids,
num_appointments)`: appointment ids run from 1. -/
def generate_appointments (now : Int) (tinfo : List (Int × TreatmentInfo))
    (pids thids tids : List Int) (num : Nat) (r : Rng) :
    Except String (List Appointment × List Cancellation × Rng) :=
  generate_appointments_from now tinfo pids thids tids num 1 r

/-- A generated reception-task record. -/
structure ReceptionTask where
  task_type : String
  patient_id : Option Int
  appointment_id : Option Int
  priority : Int
  status : String
  assigned_to : String
  estimated_duration_minutes : Int
  actual_duration_minutes : Option Int
  due_date : Int
  completed_date : Option Int
  notes : Option String
  created_at : Int
  deriving DecidableEq, Repr

/-- The fixed task-type catalog of `generate_reception_tasks`. -/
def task_types : List String :=
  ["Appointment Confirmation", "Insurance Verification", "Payment Processing",
   "Patient Check-in", "Reminder Call", "Follow-up"]

/-- `priority_map.get(task_type, 3)`. -/
def priority_map : String → Int
  | "Patient Check-in" => 1
  | "Appointment Confirmation" => 2
  | "Insurance Verification" => 3
  | "Payment Processing" => 2
  | "Reminder Call" => 3
  | "Follow-up" => 4
  | _ => 3

/-- `duration_map.get(task_type, 5)`. -/
def duration_map : String → Int
  | "Appointment Confirmation" => 3
  | "Insurance Verification" => 8
  | "Payment Processing" => 5
  | "Patient Check-in" => 2
  | "Reminder Call" => 4
  | "Follow-up" => 6
  | _ => 5

/-- One iteration of the loop in `generate_reception_tasks`: type draw,
appointment/patient reference (with `random.choice` on the
caller-supplied id lists, hence fallible), creation age, age-dependent
status with conditional completion fields, then assignee and notes. -/
def generate_one_reception_task (now : Int) (aids pids : List Int) (r0 : Rng) :
    Except String (ReceptionTask × Rng) :=
  let tt := choiceD "" task_types r0
  let refsE : Except String ((Option Int × Option Int) × Rng) :=
    if tt.1 = "Appointment Confirmation" ∨ tt.1 = "Patient Check-in" then
      match choiceE aids tt.2 with
      | .error e => .error e
      | .ok ac => .ok ((some ac.1, none), ac.2)
    else
      let f := randFloat tt.2
      if f.1 < 700 then
        match choiceE aids f.2 with
        | .error e => .error e
        | .ok ac =>
          match choiceE pids ac.2 with
          | .error e => .error e
          | .ok pc => .ok ((some ac.1, some pc.1), pc.2)
      else
        match choiceE pids f.2 with
        | .error e => .error e
        | .ok pc => .ok ((none, some pc.1), pc.2)
  match refsE with
  | .error e => .error e
  | .ok refs =>
    let cr := randint 1 30 refs.2
    let created := now - cr.1 * minutesPerDay
    let priority := priority_map tt.1
    let estimated := duration_map tt.1
    let old := created < now - minutesPerDay
    let stOld := choiceD "" ["Completed", "Cancelled"] cr.2
    let stNew := choiceD "" ["Pending", "In Progress"] cr.2
    let status := if old then stOld.1 else stNew.1
    let rSt := if old then stOld.2 else stNew.2
    let cd := randint 1 48 rSt
    let ad := randint (-2) 3 cd.2
    let done := old ∧ stOld.1 = "Completed"
    let completed_date := if done then some (created + cd.1 * 60) else none
    let actual_duration := if done then some (estimated + ad.1) else none
    let rAfter := if done then ad.2 else rSt
    let asg := choiceD "" ["Sarah", "Mike", "Jennifer", "Auto-System"] rAfter
    let nf := randFloat asg.2
    let notes := if nf.1 < 300 then some (fakeString "sentence" nf.2).1 else none
    let rEnd := if nf.1 < 300 then (fakeString "sentence" nf.2).2 else nf.2
    .ok (⟨tt.1, refs.1.2, refs.1.1, priority, status, asg.1, estimated,
      actual_duration, created + 24 * 60, completed_date, notes, created⟩, rEnd)

/-- The loop of `generate_reception_tasks`, `n` iterations remaining. -/
def generate_reception_tasks_from (now : Int) (aids pids : List Int) :
    Nat → Rng → Except String (List ReceptionTask × Rng)
  | 0, r => .ok ([], r)
  | n + 1, r =>
    match generate_one_reception_task now aids pids r with
    | .error e => .error e
    | .ok t =>
      match generate_reception_tasks_from now aids pids n t.2 with
      | .error e => .error e
      | .ok rest => .ok (t.1 :: rest.1, rest.2)

/-- `generate_reception_tasks(appointment_ids, patient_ids)`: a fixed
200-iteration loop. -/
def generate_reception_tasks (now : Int) (aids pids : List Int) (r : Rng) :
    Except String (List ReceptionTask × Rng) :=
  generate_reception_tasks_from now aids pids 200 r

/-- The visible state of the SQLite store, one list per table written by
the generator (plus the read-only treatment catalog). -/
structure ClinicDB where
  patients : List Patient
  therapists : List Therapist
  treatments : List (Int × TreatmentInfo)
  appointments : List Appointment
  cancellations : List Cancellation
  reception_tasks : List ReceptionTask
  deriving DecidableEq, Repr

/-- `AUTOINCREMENT` keys handed out by the store: `1 .. length`. -/
def rowIds (n : Nat) : List Int :=
  (List.range n).map (fun i => Int.ofNat i + 1)

/-- `SELECT patient_id FROM patients`. -/
def ClinicDB.patient_ids (db : ClinicDB) : List Int := rowIds db.patients.length

/-- `SELECT therapist_id FROM therapists`. -/
def ClinicDB.therapist_ids (db : ClinicDB) : List Int := rowIds db.therapists.length

/-- `SELECT appointment_id FROM appointments`. -/
def ClinicDB.appointment_ids (db : ClinicDB) : List Int := rowIds db.appointments.length

/-- `SELECT treatment_id FROM treatments`. -/
def ClinicDB.treatment_ids (db : ClinicDB) : List Int := db.treatments.map Prod.fst

/-- The store's per-row acceptance oracle: whether an `INSERT` of a
given record succeeds or raises (constraint violation, I/O failure). -/
structure InsertOk where
  patientOk : Patient → Bool
  therapistOk : Therapist → Bool
  appointmentOk : Appointment → Bool
  cancellationOk : Cancellation → Bool
  taskOk : ReceptionTask → Bool

/-- `insert_data_to_database`: the rows are executed inside one
transaction; if every row is accepted the transaction commits (all rows
appended), otherwise `rollback()` restores the pre-call state and the
error is re-raised (`some` message in the second component). -/
def insert_data_to_database (ok : InsertOk) (db : ClinicDB)
    (ps : List Patient) (ths : List Therapist) (apts : List Appointment)
    (cs : List Cancellation) (tasks : List ReceptionTask) : ClinicDB × Option String :=
  if ps.all ok.patientOk && ths.all ok.therapistOk && apts.all ok.appointmentOk
      && cs.all ok.cancellationOk && tasks.all ok.taskOk then
    (⟨db.patients ++ ps, db.therapists ++ ths, db.treatments,
      db.appointments ++ apts, db.cancellations ++ cs,
      db.reception_tasks ++ tasks⟩, none)
  else
    (db, some "Error inserting data")

/-- The orchestration of `generate_all_data`, with the three batch
sizes as parameters: generate patients and therapists, bulk-insert them
(first transaction), reload the assigned keys, generate
appointments/cancellations (reading the treatment catalog from the
store) and reception tasks, then bulk-insert those (second
transaction).  Any raised error propagates, leaving the store in
whatever state the completed transactions produced.  Note the source
reads `appointment_ids` from the store *before* the appointment batch
is inserted. -/
def generate_all_data_core (ok : InsertOk) (now : Int) (r : Rng) (db0 : ClinicDB)
    (npat nther napp : Nat) : ClinicDB × Option String :=
  let gp := generate_patients now npat r
  let gt := generate_therapists now nther gp.2
  let ins1 := insert_data_to_database ok db0 gp.1 gt.1 [] [] []
  match ins1.2 with
  | some e => (ins1.1, some e)
  | none =>
    let db1 := ins1.1
    match generate_appointments now db1.treatments db1.patient_ids
        db1.therapist_ids db1.treatment_ids napp gt.2 with
    | .error e => (db1, some e)
    | .ok gen =>
      match generate_reception_tasks now db1.appointment_ids db1.patient_ids
          gen.2.2 with
      | .error e => (db1, some e)
      | .ok gtasks =>
        let ins2 := insert_data_to_database ok db1 [] [] gen.1 gen.2.1 gtasks.1
        (ins2.1, ins2.2)

/-- `generate_all_data`: the source's batch sizes — 500 patients, 6
therapists, 3000 appointments (and the fixed 200 reception tasks inside
`generate_reception_tasks`). -/
def generate_all_data (ok : InsertOk) (now : Int) (r : Rng) (db0 : ClinicDB) :
    ClinicDB × Option String :=
  generate_all_data_core ok now r db0 500 6 3000

/-- The sample treatment catalog of
`ClinicDatabase.insert_sample_treatments` (ids by `AUTOINCREMENT`
insertion order; duration minutes and base price per row). -/
def sample_treatments : List (Int × TreatmentInfo) :=
  [(1, ⟨60, 85.00⟩), (2, ⟨45, 75.00⟩), (3, ⟨45, 65.00⟩), (4, ⟨30, 55.00⟩),
   (5, ⟨30, 45.00⟩), (6, ⟨30, 70.00⟩), (7, ⟨45, 65.00⟩), (8, ⟨30, 50.00⟩),
   (9, ⟨45, 80.00⟩), (10, ⟨30, 60.00⟩)]

/-! ### Basic facts about the sampling primitives -/

theorem randint_le (lo hi : Int) (r : Rng) (h : lo ≤ hi) :
    lo ≤ (randint lo hi r).1 ∧ (randint lo hi r).1 ≤ hi := by
  unfold randint
  have hpos : (0 : Int) < hi - lo + 1 := by omega
  have h1 : 0 ≤ ((r.next.1 : Int)).emod (hi - lo + 1) := Int.emod_nonneg _ (by omega)
  have h2 : ((r.next.1 : Int)).emod (hi - lo + 1) < hi - lo + 1 := Int.emod_lt_of_pos _ hpos
  constructor <;> simp <;> omega

theorem choiceD_mem {α : Type} (d : α) (xs : List α) (r : Rng) (h : xs ≠ []) :
    (choiceD d xs r).1 ∈ xs := by
  unfold choiceD
  have hl : 0 < xs.length := List.length_pos.mpr h
  have hlt : r.next.1 % xs.length < xs.length := Nat.mod_lt _ hl
  rw [List.getD_eq_getElem xs d hlt]
  exact List.getElem_mem hlt

theorem choiceE_ok {α : Type} (xs : List α) (r : Rng) (h : xs ≠ []) :
    ∃ y r1, choiceE xs r = .ok (y, r1) ∧ y ∈ xs := by
  match xs, h with
  | x :: rest, _ =>
    refine ⟨(choiceD x (x :: rest) r).1, (choiceD x (x :: rest) r).2, rfl, ?_⟩
    exact choiceD_mem _ _ _ (by simp)

theorem choiceE_mem {α : Type} (xs : List α) (r : Rng) (y : α) (r1 : Rng)
    (h : choiceE xs r = .ok (y, r1)) : y ∈ xs := by
  match xs with
  | [] => simp [choiceE] at h
  | x :: rest =>
    simp only [choiceE] at h
    injection h with h
    have hy : y = (choiceD x (x :: rest) r).1 := by rw [h]
    rw [hy]
    exact choiceD_mem x (x :: rest) r (by simp)

theorem weightedChoiceD_mem {α : Type} (d : α) (table : List (α × ℚ)) (r : Rng)
    (h : table ≠ []) : (weightedChoiceD d table r).1 ∈ table.map Prod.fst := by
  unfold weightedChoiceD
  exact choiceD_mem _ _ _ (by simpa using h)

theorem exists_ok {ε α : Type} (e : Except ε α) (h : e.isOk = true) : ∃ x, e = .ok x := by
  cases e with
  | error a => simp [Except.isOk, Except.toBool] at h
  | ok x => exact ⟨x, rfl⟩

theorem findTreatment_mem (l : List (Int × TreatmentInfo)) (k : Int) (info : TreatmentInfo)
    (h : findTreatment l k = some info) : (k, info) ∈ l := by
  induction l with
  | nil => simp [findTreatment] at h
  | cons p rest ih =>
    simp only [findTreatment] at h
    by_cases hk : p.1 = k
    · simp [hk] at h
      rw [← hk, ← h]
      exact List.mem_cons_self _ _
    · simp [hk] at h
      right
      exact ih h

theorem findTreatment_isSome_of_mem (l : List (Int × TreatmentInfo)) (k : Int)
    (h : k ∈ l.map Prod.fst) : (findTreatment l k).isSome = true := by
  induction l with
  | nil => simp at h
  | cons p rest ih =>
    simp only [List.map_cons, List.mem_cons] at h
    by_cases hk : p.1 = k
    · simp [findTreatment, hk]
    · simp only [findTreatment, hk, if_false]
      exact ih (by tauto)

/-! ### Facts about `_generate_cancellation` -/

theorem generate_cancellation_hours (aid adt : Int) (r : Rng) :
    1 ≤ (generate_cancellation aid adt r).1.hours_before_appointment ∧
    (generate_cancellation aid adt r).1.hours_before_appointment ≤ 168 := by
  have hmem := weightedChoiceD_mem 1 hours_before_weights r (by simp [hours_before_weights])
  simp only [generate_cancellation]
  generalize hgen : (weightedChoiceD 1 hours_before_weights r) = mh at hmem ⊢
  simp only [hours_before_weights, List.map_cons, List.map_nil, List.mem_cons,
    List.not_mem_nil, or_false] at hmem
  rcases hmem with h | h | h | h | h <;>
    · obtain ⟨hb1, hb2⟩ := randint_le 1 mh.1 mh.2 (by omega)
      exact ⟨hb1, by omega⟩

theorem generate_cancellation_fields (aid adt : Int) (r : Rng) :
    (generate_cancellation aid adt r).1.appointment_id = aid ∧
    (generate_cancellation aid adt r).1.cancellation_date =
      adt - (generate_cancellation aid adt r).1.hours_before_appointment * 60 := by
  simp only [generate_cancellation]
  trivial

theorem generate_cancellation_refund (aid adt : Int) (r : Rng) :
    ((generate_cancellation aid adt r).1.hours_before_appointment < 24 →
      (generate_cancellation aid adt r).1.refund_issued = false ∧
      (generate_cancellation aid adt r).1.refund_amount = 0) ∧
    (24 ≤ (generate_cancellation aid adt r).1.hours_before_appointment →
      (generate_cancellation aid adt r).1.refund_amount =
        (if (generate_cancellation aid adt r).1.refund_issued then 25.0 else 0.0)) ∧
    ((generate_cancellation aid adt r).1.refund_issued = true →
      24 ≤ (generate_cancellation aid adt r).1.hours_before_appointment) := by
  simp only [generate_cancellation]
  split_ifs with h1 h2
  all_goals refine ⟨fun h => ?_, fun h => ?_, fun h => ?_⟩
  all_goals first
    | exact h.elim
    | omega
    | rfl
    | norm_num


/-! ### The per-iteration contract of `generate_appointments` -/

/-- Bounds and shape of the three completed-appointment timestamps. -/
theorem appointment_completed_times_spec (adt dur : Int) (r : Rng) :
    ∃ d1 d2 d3, 5 ≤ d1 ∧ d1 ≤ 15 ∧ 0 ≤ d2 ∧ d2 ≤ 10 ∧ (-5 : Int) ≤ d3 ∧ d3 ≤ 15 ∧
      (appointment_completed_times adt dur r).1.1 = adt - d1 ∧
      (appointment_completed_times adt dur r).1.2.1 = adt + d2 ∧
      (appointment_completed_times adt dur r).1.2.2 = (adt + d2) + (dur + d3) := by
  refine ⟨(randint 5 15 r).1, (randint 0 10 (randint 5 15 r).2).1,
    (randint (-5) 15 (randint 0 10 (randint 5 15 r).2).2).1,
    (randint_le 5 15 r (by omega)).1, (randint_le 5 15 r (by omega)).2,
    (randint_le 0 10 _ (by omega)).1, (randint_le 0 10 _ (by omega)).2,
    (randint_le (-5) 15 _ (by omega)).1, (randint_le (-5) 15 _ (by omega)).2,
    rfl, rfl, rfl⟩


theorem generate_one_appointment_spec (now : Int) (tinfo : List (Int × TreatmentInfo))
    (pids thids tids : List Int) (aid : Int) (r : Rng) (a : Appointment)
    (copt : Option Cancellation) (r' : Rng)
    (h : generate_one_appointment now tinfo pids thids tids aid r = .ok ((a, copt), r')) :
    a.appointment_id = aid ∧
    (now < a.appointment_datetime → a.status = "Scheduled") ∧
    (a.status = "Completed" ∨ a.status = "Cancelled" ∨ a.status = "No-show" ∨
      a.status = "Scheduled") ∧
    (a.status = "Cancelled" →
      ∃ rr, copt = some (generate_cancellation aid a.appointment_datetime rr).1) ∧
    (a.status ≠ "Cancelled" → copt = none) ∧
    (∃ info, findTreatment tinfo a.treatment_id = some info ∧
      a.duration_minutes = info.duration) ∧
    (a.status = "Completed" →
      ∃ rr : Rng,
        a.check_in_time = some
          (appointment_completed_times a.appointment_datetime a.duration_minutes rr).1.1 ∧
        a.treatment_start_time = some
          (appointment_completed_times a.appointment_datetime a.duration_minutes rr).1.2.1 ∧
        a.treatment_end_time = some
          (appointment_completed_times a.appointment_datetime a.duration_minutes rr).1.2.2) ∧
    (a.status ≠ "Completed" →
      a.check_in_time = none ∧ a.treatment_start_time = none ∧
      a.treatment_end_time = none) := by
  simp only [generate_one_appointment] at h
  split at h
  · simp at h
  rename_i pc heq1
  split at h
  · simp at h
  rename_i tc heq2
  split at h
  · simp at h
  rename_i trc heq3
  split at h
  · simp at h
  rename_i info heqT
  simp only [Except.ok.injEq, Prod.mk.injEq] at h
  obtain ⟨⟨hA, hC⟩, _⟩ := h
  subst hA
  subst hC
  refine ⟨rfl, ?_, ?_, ?_, ?_, ⟨info, heqT, rfl⟩, ?_, ?_⟩
  · intro hfut
    dsimp only at hfut ⊢
    rw [if_pos hfut]
  · dsimp only
    by_cases hlt : now < (appointment_slot now trc.2).1
    · rw [if_pos hlt]; tauto
    · rw [if_neg hlt]
      have hmem := weightedChoiceD_mem "Completed" status_weights
        (appointment_pricing info.price (randint 1 14 (appointment_slot now trc.2).2).2).2
        (by simp [status_weights])
      simp only [status_weights, List.map_cons, List.map_nil, List.mem_cons,
        List.not_mem_nil, or_false] at hmem
      tauto
  · intro hst
    dsimp only at hst ⊢
    rw [if_pos hst]
    exact ⟨_, rfl⟩
  · intro hne
    dsimp only at hne ⊢
    rw [if_neg hne]
  · intro hst
    dsimp only at hst ⊢
    rw [if_pos hst, if_pos hst, if_pos hst]
    exact ⟨_, rfl, rfl, rfl⟩
  · intro hne
    dsimp only at hne ⊢
    rw [if_neg hne, if_neg hne, if_neg hne]
    exact ⟨rfl, rfl, rfl⟩

/-- Loop invariant of `generate_appointments`: sequential distinct ids,
the cancellation list mirrors exactly the cancelled appointments (in
order), every appointment is an output of the per-iteration body, and
every cancellation stems from `_generate_cancellation` at its
appointment's id and slot. -/
theorem generate_appointments_from_spec (now : Int) (tinfo : List (Int × TreatmentInfo))
    (pids thids tids : List Int) :
    ∀ (n : Nat) (aid : Int) (r : Rng) (apts : List Appointment)
      (cs : List Cancellation) (r' : Rng),
      generate_appointments_from now tinfo pids thids tids n aid r = .ok (apts, cs, r') →
      (∀ a ∈ apts, aid ≤ a.appointment_id ∧ a.appointment_id < aid + (n : Int)) ∧
      (apts.map (fun a => a.appointment_id)).Nodup ∧
      (cs.map (fun c => c.appointment_id) =
        (apts.filter (fun a => a.status == "Cancelled")).map (fun a => a.appointment_id)) ∧
      (∀ a ∈ apts, ∃ r0 copt r1,
        generate_one_appointment now tinfo pids thids tids a.appointment_id r0 =
          .ok ((a, copt), r1)) ∧
      (∀ c ∈ cs, ∃ a, a ∈ apts ∧ a.appointment_id = c.appointment_id ∧
        a.status = "Cancelled" ∧
        ∃ rr, c = (generate_cancellation a.appointment_id a.appointment_datetime rr).1) := by
  intro n
  induction n with
  | zero =>
    intro aid r apts cs r' h
    simp only [generate_appointments_from, Except.ok.injEq, Prod.mk.injEq] at h
    obtain ⟨h1, h2, _⟩ := h
    subst h1; subst h2
    simp
  | succ n ih =>
    intro aid r apts cs r' h
    simp only [generate_appointments_from] at h
    split at h
    · simp at h
    rename_i x hone
    split at h
    · simp at h
    rename_i rest hrec
    simp only [Except.ok.injEq, Prod.mk.injEq] at h
    obtain ⟨h1, h2, _⟩ := h
    subst h1; subst h2
    obtain ⟨ihB, ihN, ihF, ihG, ihC⟩ := ih (aid + 1) x.2 rest.1 rest.2.1 rest.2.2 hrec
    have hspec := generate_one_appointment_spec now tinfo pids thids tids aid r
      x.1.1 x.1.2 x.2 hone
    obtain ⟨hid, _, _, hCanSome, hCanNone, _, _, _⟩ := hspec
    refine ⟨?_, ?_, ?_, ?_, ?_⟩
    · intro a ha
      rcases List.mem_cons.mp ha with hh | ht
      · subst hh
        constructor
        · exact le_of_eq hid.symm
        · rw [hid]; push_cast; omega
      · have := ihB a ht
        push_cast
        push_cast at this
        omega
    · rw [List.map_cons]
      refine List.Nodup.cons ?_ ihN
      intro hmem
      simp only [List.mem_map] at hmem
      obtain ⟨b, hb, hbid⟩ := hmem
      have := ihB b hb
      omega
    · by_cases hst : x.1.1.status = "Cancelled"
      · obtain ⟨rr, hcopt⟩ := hCanSome hst
        rw [hcopt]
        simp only [List.filter_cons, hst]
        rw [List.map_cons]
        simp only [beq_iff_eq, hst, if_pos]
        rw [List.map_cons]
        have hcid : (generate_cancellation aid x.1.1.appointment_datetime rr).1.appointment_id
            = aid := (generate_cancellation_fields _ _ _).1
        rw [hcid, hid, ihF]
      · rw [hCanNone hst]
        simp only [List.filter_cons]
        have : (x.1.1.status == "Cancelled") = false := by
          simp [hst]
        rw [this]
        simpa using ihF
    · intro a ha
      rcases List.mem_cons.mp ha with hh | ht
      · subst hh
        exact ⟨r, x.1.2, x.2, by rw [hid]; exact hone⟩
      · exact ihG a ht
    · intro c hc
      by_cases hst : x.1.1.status = "Cancelled"
      · obtain ⟨rr, hcopt⟩ := hCanSome hst
        rw [hcopt] at hc
        rcases List.mem_cons.mp hc with hh | ht
        · subst hh
          refine ⟨x.1.1, List.mem_cons_self _ _, ?_, hst, rr, by rw [hid]⟩
          rw [hid]
          exact ((generate_cancellation_fields _ _ _).1).symm
        · obtain ⟨a, ha, h1, h2, h3⟩ := ihC c ht
          exact ⟨a, List.mem_cons_of_mem _ ha, h1, h2, h3⟩
      · rw [hCanNone hst] at hc
        obtain ⟨a, ha, h1, h2, h3⟩ := ihC c hc
        exact ⟨a, List.mem_cons_of_mem _ ha, h1, h2, h3⟩

/-- Counting by a projected key equals counting in the projected list. -/
theorem countP_eq_count_map {α β : Type} [DecidableEq β] (l : List α) (f : α → β) (x : β) :
    l.countP (fun y => f y == x) = (l.map f).count x := by
  induction l with
  | nil => simp
  | cons a l ih =>
    simp only [List.countP_cons, List.map_cons, List.count_cons, ih]

/-- C2: in any successful `generate_appointments` run, every appointment
whose slot is strictly after the generation time has status
`Scheduled`; the weighted status draw shows up only for slots at or
before the generation time, so every status is one of the four
generated values. -/
theorem generate_appointments_future_scheduled (now : Int)
    (tinfo : List (Int × TreatmentInfo)) (pids thids tids : List Int) (num : Nat)
    (r : Rng) (apts : List Appointment) (cs : List Cancellation) (r' : Rng)
    (h : generate_appointments now tinfo pids thids tids num r = .ok (apts, cs, r')) :
    ∀ a ∈ apts, (now < a.appointment_datetime → a.status = "Scheduled") ∧
      (a.status = "Completed" ∨ a.status = "Cancelled" ∨ a.status = "No-show" ∨
        a.status = "Scheduled") := by
  intro a ha
  obtain ⟨_, _, _, hG, _⟩ :=
    generate_appointments_from_spec now tinfo pids thids tids num 1 r apts cs r' h
  obtain ⟨r0, copt, r1, hone⟩ := hG a ha
  have hs := generate_one_appointment_spec now tinfo pids thids tids
    a.appointment_id r0 a copt r1 hone
  exact ⟨hs.2.1, hs.2.2.1⟩

/-- C3: in any successful `generate_appointments` run the cancellation
list is in 1:1 correspondence with the `Cancelled` appointments: every
cancellation references a cancelled appointment, every cancelled
appointment has exactly one cancellation, and a non-cancelled
appointment has none. -/
theorem generate_appointments_cancellations_one_to_one (now : Int)
    (tinfo : List (Int × TreatmentInfo)) (pids thids tids : List Int) (num : Nat)
    (r : Rng) (apts : List Appointment) (cs : List Cancellation) (r' : Rng)
    (h : generate_appointments now tinfo pids thids tids num r = .ok (apts, cs, r')) :
    (∀ c ∈ cs, ∃ a, a ∈ apts ∧ a.appointment_id = c.appointment_id ∧
      a.status = "Cancelled") ∧
    (∀ a ∈ apts, a.status = "Cancelled" →
      cs.countP (fun c => c.appointment_id == a.appointment_id) = 1) ∧
    (∀ a ∈ apts, a.status ≠ "Cancelled" →
      cs.countP (fun c => c.appointment_id == a.appointment_id) = 0) := by
  obtain ⟨_, hN, hF, _, hC⟩ :=
    generate_appointments_from_spec now tinfo pids thids tids num 1 r apts cs r' h
  have hsub : ((apts.filter (fun a => a.status == "Cancelled")).map
      (fun a => a.appointment_id)).Sublist (apts.map (fun a => a.appointment_id)) :=
    (List.filter_sublist _).map _
  have hNf := hN.sublist hsub
  refine ⟨?_, ?_, ?_⟩
  · intro c hc
    obtain ⟨a, ha, h1, h2, _⟩ := hC c hc
    exact ⟨a, ha, h1, h2⟩
  · intro a ha hst
    rw [countP_eq_count_map, hF]
    refine List.count_eq_one_of_mem hNf ?_
    exact List.mem_map_of_mem _ (List.mem_filter.mpr ⟨ha, by simp [hst]⟩)
  · intro a ha hst
    rw [countP_eq_count_map, hF]
    rw [List.count_eq_zero]
    intro hmem
    obtain ⟨b, hb, hbid⟩ := List.mem_map.mp hmem
    obtain ⟨hbmem, hbst⟩ := List.mem_filter.mp hb
    have : b = a := List.inj_on_of_nodup_map hN hbmem ha hbid
    subst this
    simp at hbst
    exact hst hbst

/-- C4: in any successful `generate_appointments` run over a catalog
whose durations are all at least 6 minutes (the repository's sample
catalog has 30–60), every `Completed` appointment carries all three
in-clinic timestamps in strict order check-in < treatment-start <
treatment-end, and every non-`Completed` appointment carries none. -/
theorem generate_appointments_completed_timestamps (now : Int)
    (tinfo : List (Int × TreatmentInfo)) (pids thids tids : List Int) (num : Nat)
    (r : Rng) (apts : List Appointment) (cs : List Cancellation) (r' : Rng)
    (h : generate_appointments now tinfo pids thids tids num r = .ok (apts, cs, r'))
    (hdur : ∀ p ∈ tinfo, 6 ≤ p.2.duration) :
    ∀ a ∈ apts,
      (a.status = "Completed" → ∃ tci tts tte, a.check_in_time = some tci ∧
        a.treatment_start_time = some tts ∧ a.treatment_end_time = some tte ∧
        tci < tts ∧ tts < tte) ∧
      (a.status ≠ "Completed" → a.check_in_time = none ∧
        a.treatment_start_time = none ∧ a.treatment_end_time = none) := by
  intro a ha
  obtain ⟨_, _, _, hG, _⟩ :=
    generate_appointments_from_spec now tinfo pids thids tids num 1 r apts cs r' h
  obtain ⟨r0, copt, r1, hone⟩ := hG a ha
  obtain ⟨_, _, _, _, _, ⟨info, hfind, hdeq⟩, hComp, hNone⟩ :=
    generate_one_appointment_spec now tinfo pids thids tids
      a.appointment_id r0 a copt r1 hone
  refine ⟨?_, hNone⟩
  intro hst
  obtain ⟨rr, e1, e2, e3⟩ := hComp hst
  obtain ⟨d1, d2, d3, b1, b2, b3, b4, b5, b6, q1, q2, q3⟩ :=
    appointment_completed_times_spec a.appointment_datetime a.duration_minutes rr
  have h6 : 6 ≤ a.duration_minutes := by
    rw [hdeq]
    exact hdur _ (findTreatment_mem tinfo a.treatment_id info hfind)
  refine ⟨_, _, _, e1, e2, e3, ?_, ?_⟩
  · rw [q1, q2]; omega
  · rw [q2, q3]; omega

/-- C5: every cancellation record of a successful
`generate_appointments` run obeys the refund rule: under 24 hours
before the slot the refund is denied with amount 0; at 24 hours or
more the amount is 25.0 when the refund coin came up and 0.0
otherwise; a refund is issued only at 24 hours or more. -/
theorem generate_appointments_refund_policy (now : Int)
    (tinfo : List (Int × TreatmentInfo)) (pids thids tids : List Int) (num : Nat)
    (r : Rng) (apts : List Appointment) (cs : List Cancellation) (r' : Rng)
    (h : generate_appointments now tinfo pids thids tids num r = .ok (apts, cs, r')) :
    ∀ c ∈ cs,
      (c.hours_before_appointment < 24 →
        c.refund_issued = false ∧ c.refund_amount = 0) ∧
      (24 ≤ c.hours_before_appointment →
        c.refund_amount = (if c.refund_issued then 25.0 else 0.0)) ∧
      (c.refund_issued = true → 24 ≤ c.hours_before_appointment) := by
  intro c hc
  obtain ⟨_, _, _, _, hC⟩ :=
    generate_appointments_from_spec now tinfo pids thids tids num 1 r apts cs r' h
  obtain ⟨a, _, _, _, rr, hgc⟩ := hC c hc
  rw [hgc]
  exact generate_cancellation_refund _ _ _

/-- C10: every cancellation record of a successful
`generate_appointments` run has an integral hours-before-appointment
in `[1, 168]`, and its timestamp is exactly that many hours before its
appointment's slot — hence strictly earlier by at least one hour. -/
theorem generate_appointments_cancellation_timing (now : Int)
    (tinfo : List (Int × TreatmentInfo)) (pids thids tids : List Int) (num : Nat)
    (r : Rng) (apts : List Appointment) (cs : List Cancellation) (r' : Rng)
    (h : generate_appointments now tinfo pids thids tids num r = .ok (apts, cs, r')) :
    ∀ c ∈ cs, 1 ≤ c.hours_before_appointment ∧ c.hours_before_appointment ≤ 168 ∧
      ∃ a, a ∈ apts ∧ a.appointment_id = c.appointment_id ∧
        c.cancellation_date =
          a.appointment_datetime - c.hours_before_appointment * 60 ∧
        c.cancellation_date + 60 ≤ a.appointment_datetime := by
  intro c hc
  obtain ⟨_, _, _, _, hC⟩ :=
    generate_appointments_from_spec now tinfo pids thids tids num 1 r apts cs r' h
  obtain ⟨a, ha, _, _, rr, hgc⟩ := hC c hc
  obtain ⟨hb1, hb2⟩ := generate_cancellation_hours a.appointment_id a.appointment_datetime rr
  obtain ⟨hcid, hdate⟩ := generate_cancellation_fields a.appointment_id a.appointment_datetime rr
  rw [hgc]
  exact ⟨hb1, hb2, a, ha, hcid.symm, hdate, by omega⟩

/-- If the treatment-id list is empty, the body of the first loop
iteration fails at `random.choice(treatment_ids)` (or earlier, when the
patient or therapist list is also empty). -/
theorem generate_one_appointment_empty_tids (now : Int)
    (tinfo : List (Int × TreatmentInfo)) (pids thids : List Int) (aid : Int) (r : Rng) :
    ∃ e, generate_one_appointment now tinfo pids thids [] aid r = .error e := by
  simp only [generate_one_appointment]
  cases choiceE pids r with
  | error e => exact ⟨e, rfl⟩
  | ok pc =>
    dsimp only
    cases choiceE thids pc.2 with
    | error e => exact ⟨e, rfl⟩
    | ok tc => exact ⟨"IndexError: empty sequence", rfl⟩

/-- C8: with an empty treatment catalog (no treatment ids) and at least
one appointment requested, `generate_appointments` signals an error and
produces no appointment records. -/
theorem generate_appointments_empty_catalog_fails (now : Int)
    (tinfo : List (Int × TreatmentInfo)) (pids thids : List Int) (num : Nat)
    (r : Rng) (hnum : 1 ≤ num) :
    ∃ e, generate_appointments now tinfo pids thids [] num r = .error e := by
  match num, hnum with
  | n + 1, _ =>
    simp only [generate_appointments, generate_appointments_from]
    obtain ⟨e, he⟩ := generate_one_appointment_empty_tids now tinfo pids thids 1 r
    rw [he]
    exact ⟨e, rfl⟩

/-! ### Facts about `generate_patients` -/

theorem generate_realistic_age_bounds (r : Rng) :
    25 ≤ (generate_realistic_age r).1 ∧ (generate_realistic_age r).1 ≤ 90 := by
  have hmem := weightedChoiceD_mem (25, 35) PATIENT_AGE_WEIGHTS r
    (by simp [PATIENT_AGE_WEIGHTS])
  simp only [generate_realistic_age]
  generalize hgen : weightedChoiceD (25, 35) PATIENT_AGE_WEIGHTS r = br at hmem ⊢
  simp only [PATIENT_AGE_WEIGHTS, List.map_cons, List.map_nil, List.mem_cons,
    List.not_mem_nil, or_false] at hmem
  rcases hmem with h | h | h | h | h <;>
    · have e1 := congrArg Prod.fst h
      have e2 := congrArg Prod.snd h
      simp only at e1 e2
      obtain ⟨h1, h2⟩ := randint_le br.1.1 br.1.2 br.2 (by omega)
      omega

theorem generate_one_patient_spec (now : Int) (r : Rng) :
    (∃ age : Int, 25 ≤ age ∧ age ≤ 90 ∧
      (generate_one_patient now r).1.date_of_birth =
        now.fdiv minutesPerDay - age * 365) ∧
    ((generate_one_patient now r).1.gender = "M" ∨
      (generate_one_patient now r).1.gender = "F") := by
  constructor
  · exact ⟨(generate_realistic_age r).1, (generate_realistic_age_bounds r).1,
      (generate_realistic_age_bounds r).2, rfl⟩
  · have hmem := choiceD_mem "M" ["M", "F"] (generate_realistic_age r).2 (by simp)
    simpa using hmem

theorem generate_patients_mem (now : Int) :
    ∀ (n : Nat) (r : Rng) (p : Patient), p ∈ (generate_patients now n r).1 →
      ∃ r0, p = (generate_one_patient now r0).1 := by
  intro n
  induction n with
  | zero => intro r p hp; simp [generate_patients] at hp
  | succ n ih =>
    intro r p hp
    simp only [generate_patients] at hp
    rcases List.mem_cons.mp hp with hh | ht
    · exact ⟨r, hh⟩
    · exact ih _ p ht

/-- C6: every generated patient's drawn age lies in the configured
bracket range 25–90, and the birth date is derived as exactly
`age * 365` days before the generation date — so the age re-derived
from the birth date equals the drawn age exactly (difference 0, well
within one day of rounding). -/
theorem generate_patients_age_birthdate (now : Int) (n : Nat) (r : Rng) :
    ∀ p ∈ (generate_patients now n r).1, ∃ age : Int, 25 ≤ age ∧ age ≤ 90 ∧
      p.date_of_birth = now.fdiv minutesPerDay - age * 365 ∧
      now.fdiv minutesPerDay - p.date_of_birth = age * 365 := by
  intro p hp
  obtain ⟨r0, hpe⟩ := generate_patients_mem now n r p hp
  obtain ⟨⟨age, h1, h2, h3⟩, _⟩ := generate_one_patient_spec now r0
  subst hpe
  exact ⟨age, h1, h2, h3, by omega⟩

/-- C9: every generated patient's gender is drawn from
`random.choice(['M', 'F'])`, so it is `M` or `F`; the schema's third
value `Other` is never produced. -/
theorem generate_patients_gender (now : Int) (n : Nat) (r : Rng) :
    ∀ p ∈ (generate_patients now n r).1, p.gender = "M" ∨ p.gender = "F" := by
  intro p hp
  obtain ⟨r0, hpe⟩ := generate_patients_mem now n r p hp
  subst hpe
  exact (generate_one_patient_spec now r0).2

/-! ### Facts about `generate_reception_tasks` -/

theorem generate_one_reception_task_spec (now : Int) (aids pids : List Int) (r : Rng)
    (t : ReceptionTask) (r' : Rng)
    (h : generate_one_reception_task now aids pids r = .ok (t, r')) :
    (t.created_at < now - minutesPerDay →
      (t.status = "Completed" ∨ t.status = "Cancelled") ∧
      (t.status = "Completed" → ∃ cd ad, t.completed_date = some cd ∧
        t.actual_duration_minutes = some ad ∧ t.created_at < cd)) ∧
    (¬ t.created_at < now - minutesPerDay →
      (t.status = "Pending" ∨ t.status = "In Progress") ∧
      t.completed_date = none ∧ t.actual_duration_minutes = none) := by
  simp only [generate_one_reception_task] at h
  split at h
  · simp at h
  rename_i refs heqR
  simp only [Except.ok.injEq, Prod.mk.injEq] at h
  obtain ⟨hT, _⟩ := h
  subst hT
  constructor
  · intro hold
    dsimp only at hold ⊢
    have hmem := choiceD_mem "" ["Completed", "Cancelled"]
      (if (now - (randint 1 30 refs.2).1 * minutesPerDay < now - minutesPerDay) then
        (choiceD "" ["Completed", "Cancelled"] (randint 1 30 refs.2).2).2
      else (choiceD "" ["Pending", "In Progress"] (randint 1 30 refs.2).2).2) (by simp)
    rw [if_pos hold]
    constructor
    · simpa using choiceD_mem "" ["Completed", "Cancelled"] (randint 1 30 refs.2).2 (by simp)
    · intro hst
      have hdone := And.intro hold hst
      rw [if_pos hdone, if_pos hdone]
      refine ⟨_, _, rfl, rfl, ?_⟩
      rw [if_pos hold]
      have := randint_le 1 48
        (choiceD "" ["Completed", "Cancelled"] (randint 1 30 refs.2).2).2 (by omega)
      omega
  · intro hold
    dsimp only at hold ⊢
    rw [if_neg hold]
    refine ⟨?_, ?_, ?_⟩
    · simpa using choiceD_mem "" ["Pending", "In Progress"] (randint 1 30 refs.2).2 (by simp)
    · rw [if_neg (by intro hc; exact hold hc.1)]
    · rw [if_neg (by intro hc; exact hold hc.1)]

theorem generate_reception_tasks_from_mem (now : Int) (aids pids : List Int) :
    ∀ (n : Nat) (r : Rng) (ts : List ReceptionTask) (r' : Rng),
      generate_reception_tasks_from now aids pids n r = .ok (ts, r') →
      ∀ t ∈ ts, ∃ r0 r1, generate_one_reception_task now aids pids r0 = .ok (t, r1) := by
  intro n
  induction n with
  | zero =>
    intro r ts r' h
    simp only [generate_reception_tasks_from, Except.ok.injEq, Prod.mk.injEq] at h
    obtain ⟨h1, _⟩ := h
    subst h1
    simp
  | succ n ih =>
    intro r ts r' h
    simp only [generate_reception_tasks_from] at h
    split at h
    · simp at h
    rename_i x hone
    split at h
    · simp at h
    rename_i rest hrec
    simp only [Except.ok.injEq, Prod.mk.injEq] at h
    obtain ⟨h1, _⟩ := h
    subst h1
    intro t ht
    rcases List.mem_cons.mp ht with hh | htl
    · subst hh
      exact ⟨r, x.2, hone⟩
    · exact ih x.2 rest.1 rest.2 hrec t htl

/-- C7: in any successful `generate_reception_tasks` run, a task
created more than one day before generation time has status `Completed`
or `Cancelled`, and when `Completed` its completion date and actual
duration are present with completion strictly after creation; a task
created at most one day before generation time is `Pending` or
`In Progress` with neither completion field. -/
theorem generate_reception_tasks_age_status (now : Int) (aids pids : List Int)
    (r : Rng) (ts : List ReceptionTask) (r' : Rng)
    (h : generate_reception_tasks now aids pids r = .ok (ts, r')) :
    ∀ t ∈ ts,
      (t.created_at < now - minutesPerDay →
        (t.status = "Completed" ∨ t.status = "Cancelled") ∧
        (t.status = "Completed" → ∃ cd ad, t.completed_date = some cd ∧
          t.actual_duration_minutes = some ad ∧ t.created_at < cd)) ∧
      (¬ t.created_at < now - minutesPerDay →
        (t.status = "Pending" ∨ t.status = "In Progress") ∧
        t.completed_date = none ∧ t.actual_duration_minutes = none) := by
  intro t ht
  obtain ⟨r0, r1, hone⟩ :=
    generate_reception_tasks_from_mem now aids pids 200 r ts r' h t ht
  exact generate_one_reception_task_spec now aids pids r0 t r1 hone

/-! ### Success and length facts used for the persistence analysis -/

theorem generate_patients_length (now : Int) :
    ∀ (n : Nat) (r : Rng), (generate_patients now n r).1.length = n := by
  intro n
  induction n with
  | zero => intro r; simp [generate_patients]
  | succ n ih => intro r; simp [generate_patients, ih]

theorem generate_one_appointment_ok (now : Int) (tinfo : List (Int × TreatmentInfo))
    (pids thids tids : List Int) (aid : Int) (r : Rng)
    (h1 : pids ≠ []) (h2 : thids ≠ []) (h3 : tids ≠ [])
    (h4 : ∀ t ∈ tids, (findTreatment tinfo t).isSome = true) :
    ∃ x, generate_one_appointment now tinfo pids thids tids aid r = .ok x := by
  simp only [generate_one_appointment]
  obtain ⟨y1, rr1, he1, _⟩ := choiceE_ok pids r h1
  rw [he1]
  dsimp only
  obtain ⟨y2, rr2, he2, _⟩ := choiceE_ok thids rr1 h2
  rw [he2]
  dsimp only
  obtain ⟨y3, rr3, he3, hm3⟩ := choiceE_ok tids rr2 h3
  rw [he3]
  dsimp only
  obtain ⟨info, hinfo⟩ := Option.isSome_iff_exists.mp (h4 y3 hm3)
  rw [hinfo]
  exact ⟨_, rfl⟩

theorem generate_appointments_from_ok (now : Int) (tinfo : List (Int × TreatmentInfo))
    (pids thids tids : List Int)
    (h1 : pids ≠ []) (h2 : thids ≠ []) (h3 : tids ≠ [])
    (h4 : ∀ t ∈ tids, (findTreatment tinfo t).isSome = true) :
    ∀ (n : Nat) (aid : Int) (r : Rng), ∃ apts cs r',
      generate_appointments_from now tinfo pids thids tids n aid r = .ok (apts, cs, r') := by
  intro n
  induction n with
  | zero => intro aid r; exact ⟨[], [], r, rfl⟩
  | succ n ih =>
    intro aid r
    obtain ⟨x, hx⟩ := generate_one_appointment_ok now tinfo pids thids tids aid r h1 h2 h3 h4
    obtain ⟨apts, cs, r', hrec⟩ := ih (aid + 1) x.2
    simp only [generate_appointments_from]
    rw [hx]
    dsimp only
    rw [hrec]
    exact ⟨_, _, _, rfl⟩

theorem generate_one_reception_task_ok (now : Int) (aids pids : List Int) (r : Rng)
    (h1 : aids ≠ []) (h2 : pids ≠ []) :
    ∃ t r1, generate_one_reception_task now aids pids r = .ok (t, r1) := by
  simp only [generate_one_reception_task]
  by_cases hb : (choiceD "" task_types r).1 = "Appointment Confirmation" ∨
      (choiceD "" task_types r).1 = "Patient Check-in"
  · rw [if_pos hb]
    obtain ⟨y, rr, he, _⟩ := choiceE_ok aids (choiceD "" task_types r).2 h1
    rw [he]
    exact ⟨_, _, rfl⟩
  · rw [if_neg hb]
    by_cases hf : (randFloat (choiceD "" task_types r).2).1 < 700
    · rw [if_pos hf]
      obtain ⟨y1, rr1, he1, _⟩ := choiceE_ok aids (randFloat (choiceD "" task_types r).2).2 h1
      rw [he1]
      dsimp only
      obtain ⟨y2, rr2, he2, _⟩ := choiceE_ok pids rr1 h2
      rw [he2]
      exact ⟨_, _, rfl⟩
    · rw [if_neg hf]
      obtain ⟨y, rr, he, _⟩ := choiceE_ok pids (randFloat (choiceD "" task_types r).2).2 h2
      rw [he]
      exact ⟨_, _, rfl⟩

theorem generate_reception_tasks_from_ok (now : Int) (aids pids : List Int)
    (h1 : aids ≠ []) (h2 : pids ≠ []) :
    ∀ (n : Nat) (r : Rng), ∃ ts r',
      generate_reception_tasks_from now aids pids n r = .ok (ts, r') ∧
      ts.length = n := by
  intro n
  induction n with
  | zero => intro r; exact ⟨[], r, rfl, rfl⟩
  | succ n ih =>
    intro r
    obtain ⟨t, r1, ht⟩ := generate_one_reception_task_ok now aids pids r h1 h2
    obtain ⟨ts, r', hrec, hlen⟩ := ih r1
    simp only [generate_reception_tasks_from]
    rw [ht]
    dsimp only
    rw [hrec]
    exact ⟨t :: ts, r', rfl, by simp [hlen]⟩

theorem rowIds_length (n : Nat) : (rowIds n).length = n := by
  unfold rowIds
  rw [List.length_map, List.length_range]

theorem rowIds_ne_nil (n : Nat) (h : 0 < n) : rowIds n ≠ [] := by
  intro hc
  have := rowIds_length n
  rw [hc] at this
  simp at this
  omega

theorem generate_therapists_from_length (now : Int) :
    ∀ (n i : Nat) (r : Rng), (generate_therapists_from now i n r).1.length = n := by
  intro n
  induction n with
  | zero => intro i r; simp [generate_therapists_from]
  | succ n ih => intro i r; simp [generate_therapists_from, ih]

/-! ### Persistence: per-call atomicity, and the two-transaction run -/

/-- C1 (amended): each single call to `insert_data_to_database` is
atomic — when any insertion in the call fails, the transaction is
rolled back, leaving the visible store exactly as before the call, and
the error is surfaced to the caller.  (A full `generate_all_data` run,
however, issues two such calls; see the accompanying counterexample:
a failure in the second call does not undo the first call's committed
patients and therapists.) -/
theorem insert_data_to_database_atomic (ok : InsertOk) (db : ClinicDB)
    (ps : List Patient) (ths : List Therapist) (apts : List Appointment)
    (cs : List Cancellation) (tasks : List ReceptionTask)
    (h : (insert_data_to_database ok db ps ths apts cs tasks).2.isSome = true) :
    (insert_data_to_database ok db ps ths apts cs tasks).1 = db := by
  by_cases hc : (ps.all ok.patientOk && ths.all ok.therapistOk
      && apts.all ok.appointmentOk && cs.all ok.cancellationOk
      && tasks.all ok.taskOk) = true
  · unfold insert_data_to_database at h
    rw [if_pos hc] at h
    simp at h
  · unfold insert_data_to_database
    rw [if_neg hc]


/-- In a run whose store accepts every row except reception tasks, the
first transaction (patients, therapists) commits, generation succeeds
(given a usable catalog and a non-empty appointments table to draw task
references from), and the second transaction fails: the run reports an
error while the visible store keeps the first transaction's rows. -/
theorem generate_all_data_core_second_insert (ok : InsertOk) (now : Int) (r : Rng)
    (db0 : ClinicDB) (npat nther napp : Nat)
    (h1 : ∀ p, ok.patientOk p = true) (h2 : ∀ t, ok.therapistOk t = true)
    (h5 : ∀ t, ok.taskOk t = false)
    (hnp : 0 < npat) (hnt : 0 < nther)
    (hTne : db0.treatments ≠ []) (hAne : 0 < db0.appointments.length) :
    (generate_all_data_core ok now r db0 npat nther napp).2.isSome = true ∧
    (generate_all_data_core ok now r db0 npat nther napp).1.patients.length =
      db0.patients.length + npat := by
  have e1 : insert_data_to_database ok db0 (generate_patients now npat r).1
      (generate_therapists now nther (generate_patients now npat r).2).1 [] [] [] =
      (⟨db0.patients ++ (generate_patients now npat r).1,
        db0.therapists ++
          (generate_therapists now nther (generate_patients now npat r).2).1,
        db0.treatments, db0.appointments, db0.cancellations,
        db0.reception_tasks⟩, none) := by
    unfold insert_data_to_database
    rw [if_pos (by simp [List.all_eq_true, h1, h2])]
    simp
  have hplen : (db0.patients ++ (generate_patients now npat r).1).length =
      db0.patients.length + npat := by
    rw [List.length_append, generate_patients_length]
  have hpne : rowIds (db0.patients ++ (generate_patients now npat r).1).length ≠ [] := by
    rw [hplen]
    exact rowIds_ne_nil _ (by omega)
  have hthne : rowIds (db0.therapists ++
      (generate_therapists now nther (generate_patients now npat r).2).1).length ≠ [] := by
    rw [List.length_append]
    unfold generate_therapists
    rw [generate_therapists_from_length]
    exact rowIds_ne_nil _ (by omega)
  have hmapne : db0.treatments.map Prod.fst ≠ [] := by
    simpa using hTne
  have hfind : ∀ t ∈ db0.treatments.map Prod.fst,
      (findTreatment db0.treatments t).isSome = true :=
    fun t ht => findTreatment_isSome_of_mem db0.treatments t ht
  obtain ⟨apts, cs, rA, hgen⟩ := generate_appointments_from_ok now db0.treatments
    (rowIds (db0.patients ++ (generate_patients now npat r).1).length)
    (rowIds (db0.therapists ++
      (generate_therapists now nther (generate_patients now npat r).2).1).length)
    (db0.treatments.map Prod.fst) hpne hthne hmapne hfind napp 1
    (generate_therapists now nther (generate_patients now npat r).2).2
  obtain ⟨ts, rT, htasks, hlen⟩ := generate_reception_tasks_from_ok now
    (rowIds db0.appointments.length)
    (rowIds (db0.patients ++ (generate_patients now npat r).1).length)
    (rowIds_ne_nil _ hAne) hpne 200 rA
  have htsne : ts ≠ [] := by
    intro hc
    rw [hc] at hlen
    simp at hlen
  have hallts : ts.all ok.taskOk = false := by
    obtain ⟨t, htm⟩ := List.exists_mem_of_ne_nil ts htsne
    exact List.all_eq_false.mpr ⟨t, htm, by rw [h5]; simp⟩
  have e2 : insert_data_to_database ok
      ⟨db0.patients ++ (generate_patients now npat r).1,
        db0.therapists ++
          (generate_therapists now nther (generate_patients now npat r).2).1,
        db0.treatments, db0.appointments, db0.cancellations,
        db0.reception_tasks⟩ [] [] apts cs ts =
      (⟨db0.patients ++ (generate_patients now npat r).1,
        db0.therapists ++
          (generate_therapists now nther (generate_patients now npat r).2).1,
        db0.treatments, db0.appointments, db0.cancellations,
        db0.reception_tasks⟩, some "Error inserting data") := by
    unfold insert_data_to_database
    rw [if_neg (by simp [hallts])]
  unfold generate_all_data_core
  dsimp only
  rw [e1]
  dsimp only [ClinicDB.patient_ids, ClinicDB.therapist_ids, ClinicDB.treatment_ids,
    ClinicDB.appointment_ids]
  simp only [generate_appointments, generate_reception_tasks]
  rw [hgen]
  dsimp only
  rw [htasks]
  dsimp only
  rw [e2]
  exact ⟨rfl, hplen⟩

/-- A pre-existing appointment row, so that a run against this store
has a non-empty appointment-id list for reception-task references. -/
def apt0 : Appointment :=
  ⟨1, 1, 1, 1, 0, 30, "Scheduled", 0, "Phone", 0, false, 0, none, false,
    none, none, none⟩

/-- A store holding one treatment and one appointment (e.g. left by an
earlier run), with no patients, therapists, cancellations or tasks. -/
def db0C1 : ClinicDB := ⟨[], [], [(1, ⟨30, 50⟩)], [apt0], [], []⟩

/-- A store oracle that accepts every row except reception tasks, so
the run's second bulk transaction fails. -/
def okC1 : InsertOk :=
  ⟨fun _ => true, fun _ => true, fun _ => true, fun _ => true, fun _ => false⟩

/-- The all-zero random stream. -/
def rngC1 : Rng := ⟨fun _ => 0, 0⟩

/-- C1 (counterexample): a `generate_all_data` run in which an
insertion fails (every reception-task insert of the second transaction
is rejected) propagates the error — yet the visible store is NOT the
pre-run store: the 500 patients and 6 therapists committed by the first
transaction remain visible.  So a failing run does not roll back every
record of the run. -/
theorem generate_all_data_not_run_atomic :
    (generate_all_data okC1 1000000 rngC1 db0C1).2.isSome = true ∧
    (generate_all_data okC1 1000000 rngC1 db0C1).1 ≠ db0C1 := by
  unfold generate_all_data
  obtain ⟨hs, hl⟩ := generate_all_data_core_second_insert okC1 1000000 rngC1 db0C1
    500 6 3000 (fun _ => rfl) (fun _ => rfl) (fun _ => rfl) (by omega) (by omega)
    (by simp [db0C1]) (by simp [db0C1])
  refine ⟨hs, fun hc => ?_⟩
  rw [hc] at hl
  simp [db0C1] at hl

/-! ### Concrete witnesses -/

/-- The all-one random stream (drives the weighted status draw to
`Cancelled`). -/
def rngOne : Rng := ⟨fun _ => 1, 0⟩

/-- A stream placing the single generated appointment after the
generation time: day offset 180, regular-hours pool, 16:45. -/
def rngFut : Rng :=
  ⟨fun pos => if pos = 3 then 180 else if pos = 4 then 700
    else if pos = 5 then 3 else if pos = 6 then 3 else 0, 0⟩

/-- A reception task used to exercise a failing insert. -/
def task0 : ReceptionTask :=
  ⟨"Follow-up", none, some 1, 3, "Pending", "Sarah", 5, none, 0, none, none, 0⟩

theorem insert_data_to_database_atomic_witness :
    (insert_data_to_database okC1 db0C1 [] [] [] [] [task0]).2.isSome = true ∧
    (insert_data_to_database okC1 db0C1 [] [] [] [] [task0]).1 = db0C1 :=
  ⟨rfl, insert_data_to_database_atomic okC1 db0C1 [] [] [] [] [task0] rfl⟩

theorem generate_appointments_future_scheduled_witness :
    ∃ apts cs r', generate_appointments 1000000 [(1, ⟨30, 50⟩)] [1] [1] [1] 1 rngFut =
        .ok (apts, cs, r') ∧
      ∀ a ∈ apts, (1000000 < a.appointment_datetime → a.status = "Scheduled") ∧
        (a.status = "Completed" ∨ a.status = "Cancelled" ∨ a.status = "No-show" ∨
          a.status = "Scheduled") := by
  obtain ⟨⟨apts, cs, r'⟩, hok⟩ :=
    exists_ok (generate_appointments 1000000 [(1, ⟨30, 50⟩)] [1] [1] [1] 1 rngFut)
      (by decide)
  exact ⟨apts, cs, r', hok,
    generate_appointments_future_scheduled 1000000 [(1, ⟨30, 50⟩)] [1] [1] [1] 1
      rngFut apts cs r' hok⟩

theorem generate_appointments_cancellations_one_to_one_witness :
    ∃ apts cs r', generate_appointments 1000000 [(1, ⟨30, 50⟩)] [1] [1] [1] 1 rngOne =
        .ok (apts, cs, r') ∧
      ((∀ c ∈ cs, ∃ a, a ∈ apts ∧ a.appointment_id = c.appointment_id ∧
        a.status = "Cancelled") ∧
      (∀ a ∈ apts, a.status = "Cancelled" →
        cs.countP (fun c => c.appointment_id == a.appointment_id) = 1) ∧
      (∀ a ∈ apts, a.status ≠ "Cancelled" →
        cs.countP (fun c => c.appointment_id == a.appointment_id) = 0)) := by
  obtain ⟨⟨apts, cs, r'⟩, hok⟩ :=
    exists_ok (generate_appointments 1000000 [(1, ⟨30, 50⟩)] [1] [1] [1] 1 rngOne)
      (by decide)
  exact ⟨apts, cs, r', hok,
    generate_appointments_cancellations_one_to_one 1000000 [(1, ⟨30, 50⟩)] [1] [1] [1]
      1 rngOne apts cs r' hok⟩

theorem generate_appointments_completed_timestamps_witness :
    ∃ apts cs r', generate_appointments 1000000 sample_treatments [1] [1] [1] 1 rngC1 =
        .ok (apts, cs, r') ∧
      ∀ a ∈ apts,
        (a.status = "Completed" → ∃ tci tts tte, a.check_in_time = some tci ∧
          a.treatment_start_time = some tts ∧ a.treatment_end_time = some tte ∧
          tci < tts ∧ tts < tte) ∧
        (a.status ≠ "Completed" → a.check_in_time = none ∧
          a.treatment_start_time = none ∧ a.treatment_end_time = none) := by
  obtain ⟨⟨apts, cs, r'⟩, hok⟩ :=
    exists_ok (generate_appointments 1000000 sample_treatments [1] [1] [1] 1 rngC1)
      (by decide)
  exact ⟨apts, cs, r', hok,
    generate_appointments_completed_timestamps 1000000 sample_treatments [1] [1] [1]
      1 rngC1 apts cs r' hok (by decide)⟩

theorem generate_appointments_refund_policy_witness :
    ∃ apts cs r', generate_appointments 1000000 [(1, ⟨30, 50⟩)] [1] [1] [1] 1 rngOne =
        .ok (apts, cs, r') ∧
      ∀ c ∈ cs,
        (c.hours_before_appointment < 24 →
          c.refund_issued = false ∧ c.refund_amount = 0) ∧
        (24 ≤ c.hours_before_appointment →
          c.refund_amount = (if c.refund_issued then 25.0 else 0.0)) ∧
        (c.refund_issued = true → 24 ≤ c.hours_before_appointment) := by
  obtain ⟨⟨apts, cs, r'⟩, hok⟩ :=
    exists_ok (generate_appointments 1000000 [(1, ⟨30, 50⟩)] [1] [1] [1] 1 rngOne)
      (by decide)
  exact ⟨apts, cs, r', hok,
    generate_appointments_refund_policy 1000000 [(1, ⟨30, 50⟩)] [1] [1] [1] 1 rngOne
      apts cs r' hok⟩

theorem generate_appointments_cancellation_timing_witness :
    ∃ apts cs r', generate_appointments 1000000 [(1, ⟨30, 50⟩)] [1] [1] [1] 1 rngOne =
        .ok (apts, cs, r') ∧
      ∀ c ∈ cs, 1 ≤ c.hours_before_appointment ∧ c.hours_before_appointment ≤ 168 ∧
        ∃ a, a ∈ apts ∧ a.appointment_id = c.appointment_id ∧
          c.cancellation_date =
            a.appointment_datetime - c.hours_before_appointment * 60 ∧
          c.cancellation_date + 60 ≤ a.appointment_datetime := by
  obtain ⟨⟨apts, cs, r'⟩, hok⟩ :=
    exists_ok (generate_appointments 1000000 [(1, ⟨30, 50⟩)] [1] [1] [1] 1 rngOne)
      (by decide)
  exact ⟨apts, cs, r', hok,
    generate_appointments_cancellation_timing 1000000 [(1, ⟨30, 50⟩)] [1] [1] [1] 1
      rngOne apts cs r' hok⟩

theorem generate_appointments_empty_catalog_fails_witness :
    ∃ e, generate_appointments 1000000 [(1, ⟨30, 50⟩)] [1] [1] [] 1 rngC1 = .error e :=
  generate_appointments_empty_catalog_fails 1000000 [(1, ⟨30, 50⟩)] [1] [1] 1 rngC1
    (by omega)

theorem generate_patients_age_birthdate_witness :
    ∃ p ∈ (generate_patients 1000000 1 rngC1).1, ∃ age : Int,
      25 ≤ age ∧ age ≤ 90 ∧
      p.date_of_birth = (1000000 : Int).fdiv minutesPerDay - age * 365 ∧
      (1000000 : Int).fdiv minutesPerDay - p.date_of_birth = age * 365 := by
  obtain ⟨p, hp⟩ := List.exists_mem_of_ne_nil (generate_patients 1000000 1 rngC1).1
    (by intro hc
        have := generate_patients_length 1000000 1 rngC1
        rw [hc] at this
        simp at this)
  exact ⟨p, hp, generate_patients_age_birthdate 1000000 1 rngC1 p hp⟩

theorem generate_patients_gender_witness :
    ∃ p ∈ (generate_patients 1000000 1 rngOne).1,
      p.gender = "M" ∨ p.gender = "F" := by
  obtain ⟨p, hp⟩ := List.exists_mem_of_ne_nil (generate_patients 1000000 1 rngOne).1
    (by intro hc
        have := generate_patients_length 1000000 1 rngOne
        rw [hc] at this
        simp at this)
  exact ⟨p, hp, generate_patients_gender 1000000 1 rngOne p hp⟩

set_option maxRecDepth 400000 in
theorem generate_reception_tasks_age_status_witness :
    ∃ ts r', generate_reception_tasks 1000000 [1] [1] rngC1 = .ok (ts, r') ∧
      ∀ t ∈ ts,
        (t.created_at < 1000000 - minutesPerDay →
          (t.status = "Completed" ∨ t.status = "Cancelled") ∧
          (t.status = "Completed" → ∃ cd ad, t.completed_date = some cd ∧
            t.actual_duration_minutes = some ad ∧ t.created_at < cd)) ∧
        (¬ t.created_at < 1000000 - minutesPerDay →
          (t.status = "Pending" ∨ t.status = "In Progress") ∧
          t.completed_date = none ∧ t.actual_duration_minutes = none) := by
  obtain ⟨⟨ts, r'⟩, hok⟩ :=
    exists_ok (generate_reception_tasks 1000000 [1] [1] rngC1) (by decide)
  exact ⟨ts, r', hok,
    generate_reception_tasks_age_status 1000000 [1] [1] rngC1 ts r' hok⟩
